import Mathlib

/-!
Verification development for the `rctclient` command-line client
(`src/rctclient/cli.py`).  The file embeds the two functions of that module
that carry the protocol logic — `receive_frame` (lines 59-87) and the
`read_value` command body (lines 100-183) — as executable Lean definitions,
and proves properties about them.

The frame decoder (`ReceiveFrame` from `rctclient/frame.py`), the registry
(`rctclient/registry.py`) and the value decoder (`rctclient/utils.py`) are
not part of the inspected sources; they enter the model only through the
interface the CLI code uses (an abstract `FrameModel`, abstract lookup
functions, and an opaque decode step), following the specification's
description of those interfaces.
-/

set_option autoImplicit false

namespace Rctclient

/-! ## Model of `receive_frame` (cli.py lines 59-87)

The Python code is

```
def receive_frame(sock, timeout=2):
    frame = ReceiveFrame()
    while True:
        ready_read, _, _ = select.select([sock], [], [], timeout)
        if ready_read:
            buf = sock.recv(1024)
            if len(buf) > 0:
                i = frame.consume(buf)
                if frame.complete():
                    if len(buf) > i:
                        log.warning(...)   # leftover-bytes caveat
                    return frame
    raise TimeoutError
```

The socket environment is modelled as a finite trace of loop-iteration
events: each iteration either sees `select` time out with nothing readable
(`SelectEvent.timeout`) or sees the socket readable and `recv` return a
chunk of bytes, possibly empty (`SelectEvent.data chunk`).  Running the
loop on a finite trace either returns a frame or exhausts the trace with
the `while True` loop still spinning (`RecvResult.stillLooping`).  The
`raise TimeoutError` statement in the source sits *after* the
`while True:` loop, which has no `break`; the constructor
`RecvResult.timeoutError` represents that statement and is never produced
by the model, mirroring its unreachability in the source.
-/

/-- Interface of the incremental frame decoder `ReceiveFrame`
(`rctclient/frame.py`, outside the inspected sources): a start state, a
`consume` step taking a byte chunk and returning the new state together
with the number of bytes consumed, and a `complete` test. -/
structure FrameModel (σ : Type) where
  init : σ
  consume : σ → List Nat → σ × Nat
  complete : σ → Bool

/-- One iteration of the `receive_frame` polling loop as seen from the
socket: either the `select` wait elapsed with no readable data, or the
socket was readable and `recv(1024)` returned `chunk` (empty on peer
close). -/
inductive SelectEvent where
  | timeout
  | data (chunk : List Nat)
deriving DecidableEq, Repr

/-- Outcome of running the `receive_frame` loop on a finite event trace.
`frame s leftover caveatLogged` is the `return frame` on line 86, carrying
the decoder state, the bytes of the chunk beyond the consumed prefix, and
whether the leftover warning (line 84) was logged.  `timeoutError` is the
`raise TimeoutError` on line 87 (after the `while True` loop).
`stillLooping` means the trace ended with the loop still running. -/
inductive RecvResult (σ : Type) where
  | frame (s : σ) (leftover : List Nat) (caveatLogged : Bool)
  | timeoutError
  | stillLooping (s : σ)
deriving DecidableEq

/-- The `receive_frame` loop body, iterated over the event trace.  The
second component of the result is an audit list recording, for every
`select.select([sock], [], [], timeout)` call made, the timeout value
passed to it (the source passes the function argument `timeout` unchanged
on every iteration). -/
def receiveFrameGo {σ : Type} (M : FrameModel σ) (timeout : Nat) :
    List SelectEvent → σ → List Nat → RecvResult σ × List Nat
  | [], s, calls => (.stillLooping s, calls)
  | e :: rest, s, calls =>
    match e with
    | .timeout => receiveFrameGo M timeout rest s (calls ++ [timeout])
    | .data chunk =>
      if chunk.length > 0 then
        match M.consume s chunk with
        | (s2, i) =>
          if M.complete s2 then
            (.frame s2 (chunk.drop i) (decide (chunk.length > i)), calls ++ [timeout])
          else
            receiveFrameGo M timeout rest s2 (calls ++ [timeout])
      else
        receiveFrameGo M timeout rest s (calls ++ [timeout])

/-- `receive_frame(sock, timeout=2)`: starts from a fresh `ReceiveFrame()`
and runs the polling loop; the declared default timeout is 2 seconds
(cli.py line 59). -/
def receive_frame {σ : Type} (M : FrameModel σ) (events : List SelectEvent)
    (timeout : Nat := 2) : RecvResult σ × List Nat :=
  receiveFrameGo M timeout events M.init []

/-! ## Model of Python `int(s, 16)` and the `--id` argument parse

`read_value` parses the `--id` argument as `int(id[2:], 16)` (line 133):
the first two characters are discarded unconditionally and the remainder
is handed to Python's `int` with base 16.  `int(s, 16)` strips surrounding
whitespace, accepts an optional sign, an optional `0x`/`0X` prefix
(optionally followed by a single underscore), and then hexadecimal digits
with single underscores allowed between digits; anything else raises
`ValueError`. -/

/-- Whitespace characters stripped by Python's `int` (ASCII subset). -/
def isPySpace (c : Char) : Bool :=
  c = ' ' || c = '\t' || c = '\n' || c = '\r' || c = '\x0b' || c = '\x0c'

/-- Strip `isPySpace` characters from both ends of a character list. -/
def trimChars (cs : List Char) : List Char :=
  ((cs.dropWhile isPySpace).reverse.dropWhile isPySpace).reverse

/-- Hexadecimal digit test. -/
def isHexDigitPy (c : Char) : Bool :=
  c.isDigit || (('a' ≤ c) && (c ≤ 'f')) || (('A' ≤ c) && (c ≤ 'F'))

/-- Numeric value of a hexadecimal digit. -/
def hexVal (c : Char) : Nat :=
  if c.isDigit then c.toNat - 48
  else if ('a' ≤ c) && (c ≤ 'f') then c.toNat - 87
  else c.toNat - 55

/-- Digits of a hexadecimal literal after the first digit: hex digits with
single underscores allowed between digits (no trailing or doubled
underscore). -/
def parseHexAux : List Char → Nat → Option Nat
  | [], acc => some acc
  | ['_'], _ => none
  | '_' :: c :: rest, acc =>
    if isHexDigitPy c then parseHexAux rest (acc * 16 + hexVal c) else none
  | c :: rest, acc =>
    if isHexDigitPy c then parseHexAux rest (acc * 16 + hexVal c) else none

/-- A nonempty run of hexadecimal digits (with inner underscores). -/
def parseHexRun (cs : List Char) : Option Nat :=
  match cs with
  | [] => none
  | c :: rest => if isHexDigitPy c then parseHexAux rest (hexVal c) else none

/-- Digits after an explicit `0x`/`0X` prefix: one underscore may directly
follow the prefix. -/
def afterPrefix (cs : List Char) : Option Nat :=
  match cs with
  | '_' :: rest => parseHexRun rest
  | _ => parseHexRun cs

/-- Magnitude part after an optional sign: optional `0x`/`0X` prefix, then
digits. -/
def afterSign (cs : List Char) : Option Nat :=
  match cs with
  | '0' :: 'x' :: rest => afterPrefix rest
  | '0' :: 'X' :: rest => afterPrefix rest
  | _ => parseHexRun cs

/-- Python's `int(s, 16)`: `some` value on success, `none` where Python
raises `ValueError`. -/
def pythonIntHex (s : String) : Option Int :=
  match trimChars s.toList with
  | '+' :: rest => (afterSign rest).map Int.ofNat
  | '-' :: rest => (afterSign rest).map (fun n => -(Int.ofNat n))
  | cs => (afterSign cs).map Int.ofNat

/-- The `--id` argument parse on cli.py line 133: `int(id[2:], 16)` —
drop the first two characters unconditionally, parse the rest as a
base-16 Python integer literal. -/
def parse_id_arg (id : String) : Option Int :=
  pythonIntHex (id.drop 2)

/-! ## Model of the `read-value` command body (cli.py lines 100-183)

The command:
1. exits 1 if both or neither of `--id`/`--name` were given (lines 127-129);
2. resolves the object: for a truthy `id`, `int(id[2:], 16)` then
   `R.get_by_id` (`ValueError` → exit 1, `KeyError` → exit 1); for a
   truthy `name`, `R.get_by_name` (lines 131-146);
3. creates a TCP socket and connects (exit 1 on `socket.error`,
   lines 148-155);
4. sends `SendFrame(command=READ, id=oinfo.object_id).data` with a single
   unchecked `sock.send` call (lines 157-158);
5. receives one frame via `receive_frame(sock)` (exit 1 on
   `FrameCRCMismatch`, lines 159-163);
6. exits 1 if the response frame's id differs from the requested one
   (lines 165-167);
7. decodes and prints the value, closes the socket, exits 0
   (lines 169-183).

Python truthiness matters in step 2: `if id: ... elif name: ...` skips
both branches when the given argument is the empty string, leaving
`oinfo` unbound and crashing at line 157 (`UnboundLocalError`) after the
connect; the model keeps that path (`crashUnboundOinfo`).

The environment (registry contents, connect success, how many bytes the
kernel accepts from the single `send` call, and what the receive loop
produces) is the `Env` record.  `sendAccepted` models the documented
semantics of Python's `socket.send`: it transmits at most the given bytes
and returns the count actually sent, which the caller is responsible for
checking — cli.py line 158 ignores that return value. -/

/-- Response data types, as enumerated by the specification's
`DecodeResult` (the concrete `rctclient.types.DataType` is outside the
inspected sources). -/
inductive DataType where
  | boolean
  | integer
  | float
  | enum
  | text
deriving DecidableEq, Repr

/-- Modelled from the spec: the registry's `ObjectDescriptor`
(`rctclient/registry.py` is outside the inspected sources): identifier,
dotted unique name, ordinal index, optional description and unit, and the
response data type. Only the fields the CLI code reads are modelled. -/
structure ObjInfo where
  object_id : Int
  name : String
  index : Nat
  description : Option String
  unit : Option String
  response_data_type : DataType
deriving DecidableEq, Repr

/-- What the `receive_frame(sock)` call on line 160 does, as visible at
its call site: return a frame (with its decoded id and payload), raise
`FrameCRCMismatch` carrying the received and the locally calculated CRC
(the exception's two fields are read on line 162), or never return
(the loop spins forever on a silent or closed socket). -/
inductive RecvOutcome where
  | ok (frameId : Int) (payload : List Nat)
  | crcMismatch (received : Nat) (calculated : Nat)
  | hang
deriving DecidableEq, Repr

/-- The environment a `read-value` invocation runs against. -/
structure Env where
  /-- `R.get_by_id` (raises `KeyError` ↦ `none`). -/
  get_by_id : Int → Option ObjInfo
  /-- `R.get_by_name` (raises `KeyError` ↦ `none`). -/
  get_by_name : String → Option ObjInfo
  /-- Whether `sock.connect((host, port))` succeeds. -/
  connectOk : Bool
  /-- `SendFrame(command=READ, id=oid).data`: the encoded READ frame for
  an object id (`rctclient/frame.py` is outside the inspected sources;
  the spec describes the encoder as a deterministic function of command
  and identifier). -/
  frameData : Int → List Nat
  /-- How many bytes the kernel accepts from the single `sock.send`
  call; `send` transmits `min sendAccepted (length data)` bytes. -/
  sendAccepted : Nat
  /-- Behaviour of the `receive_frame` call. -/
  recv : RecvOutcome

/-- Observable side effects of a `read-value` invocation, in program
order. -/
inductive Effect where
  | lookupById (id : Int)
  | lookupByName (name : String)
  | socketCreate
  | socketConnect (host : String) (port : Nat)
  /-- One `sock.send` call; the argument is the byte sequence actually
  transmitted (the accepted prefix of the frame's bytes). -/
  | sendBytes (transmitted : List Nat)
  | receiveLoop
  | decode
  | printValue (verbose : Bool)
  | socketClose
deriving DecidableEq, Repr

/-- Boolean test: is this effect a registry lookup? -/
def Effect.isLookup : Effect → Bool
  | .lookupById _ => true
  | .lookupByName _ => true
  | _ => false

/-- Boolean test: is this effect a socket send? -/
def Effect.isSend : Effect → Bool
  | .sendBytes _ => true
  | _ => false

/-- How a `read-value` invocation terminates. The `exit*` constructors
are the `sys.exit(1)` sites of cli.py; `exitSuccess` is the
`sys.exit(0)` on line 183; `hang` means `receive_frame` never returned;
`crashUnboundOinfo` is the uncaught `UnboundLocalError` at line 157 when
both arguments were falsy yet not `None`. -/
inductive RVOutcome where
  | exitValidation
  | exitParseError
  | exitNotFound
  | exitConnectError
  | exitCrcMismatch (received : Nat) (calculated : Nat)
  | exitUnexpectedId (got : Int) (expected : Int)
  | exitSuccess
  | hang
  | crashUnboundOinfo
deriving DecidableEq, Repr

/-- Result of the resolution phase (cli.py lines 131-146). -/
inductive LookupResult where
  | found (o : ObjInfo) (effs : List Effect)
  | keyError (effs : List Effect)
  | valueError (effs : List Effect)
  | skipped
deriving DecidableEq, Repr

/-- The `elif name:` branch (lines 137-139): truthy name → `get_by_name`;
falsy → neither branch taken, `oinfo` stays unbound. -/
def lookupByNamePhase (env : Env) (name : Option String) : LookupResult :=
  match name with
  | some s =>
    if s = "" then .skipped
    else
      match env.get_by_name s with
      | some o => .found o [.lookupByName s]
      | none => .keyError [.lookupByName s]
  | none => .skipped

/-- The resolution phase (lines 131-146): `if id:` parses
`int(id[2:], 16)` and looks the value up by id; otherwise `elif name:`
looks up by name. -/
def lookupPhase (env : Env) (id name : Option String) : LookupResult :=
  match id with
  | some s =>
    if s = "" then lookupByNamePhase env name
    else
      match parse_id_arg s with
      | none => .valueError []
      | some rid =>
        match env.get_by_id rid with
        | some o => .found o [.lookupById rid]
        | none => .keyError [.lookupById rid]
  | none => lookupByNamePhase env name

/-- Effects of the tail of the session after `receive_frame` returns or
raises (lines 161-183): nothing more on CRC mismatch, hang or id
mismatch; decode, print and close on success. -/
def afterReceive (env : Env) (oid : Int) (verbose : Bool) : List Effect :=
  match env.recv with
  | .hang => []
  | .crcMismatch _ _ => []
  | .ok fid _ =>
    if fid = oid then [.decode, .printValue verbose, .socketClose] else []

/-- The `read-value` command body (cli.py lines 100-183), returning the
termination outcome and the ordered list of observable effects. -/
def read_value (env : Env) (host : String) (port : Nat)
    (id name : Option String) (verbose : Bool) : RVOutcome × List Effect :=
  -- lines 127-129: exactly one of --id/--name must be given
  if (id.isNone && name.isNone) || (id.isSome && name.isSome) then
    (.exitValidation, [])
  else
    match lookupPhase env id name with
    | .valueError effs => (.exitParseError, effs)
    | .keyError effs => (.exitNotFound, effs)
    | .skipped =>
      -- lines 148-155 run, then line 157 raises UnboundLocalError
      let effs := [Effect.socketCreate, Effect.socketConnect host port]
      if env.connectOk then (.crashUnboundOinfo, effs)
      else (.exitConnectError, effs)
    | .found o effs =>
      let effs := effs ++ [Effect.socketCreate, Effect.socketConnect host port]
      if env.connectOk then
        -- line 158: sock.send(sframe.data), return value unchecked
        let tx := (env.frameData o.object_id).take env.sendAccepted
        let effs := effs ++ [Effect.sendBytes tx, Effect.receiveLoop]
        match env.recv with
        | .hang => (.hang, effs)
        | .crcMismatch r c => (.exitCrcMismatch r c, effs)
        | .ok fid _ =>
          if fid = o.object_id then
            (.exitSuccess, effs ++ [Effect.decode, Effect.printValue verbose, Effect.socketClose])
          else
            (.exitUnexpectedId fid o.object_id, effs)
      else (.exitConnectError, effs)

/-! ## Concrete instances used by witnesses and counterexamples -/

/-- A toy decoder: accumulates the byte count, complete after four bytes. -/
def lengthFrameModel : FrameModel Nat where
  init := 0
  consume := fun s c => (s + c.length, c.length)
  complete := fun s => decide (s ≥ 4)

/-- A toy decoder that needs two bytes and consumes at most two. -/
def checkFrameModel : FrameModel Bool where
  init := false
  consume := fun _ c => (true, min 2 c.length)
  complete := fun b => b

/-- A sample registry object with identifier `0x1F`. -/
def objA : ObjInfo where
  object_id := 31
  name := "battery.soc"
  index := 1
  description := none
  unit := none
  response_data_type := .integer

/-- A sample registry object with identifier `0x05`. -/
def objB : ObjInfo where
  object_id := 5
  name := "power.switch"
  index := 2
  description := none
  unit := none
  response_data_type := .boolean

/-- A benign environment: registry knows `objA` under id 31, connect
succeeds, the kernel accepts the whole send, and the device answers with
a matching frame. -/
def envBase : Env where
  get_by_id := fun i => if i = 31 then some objA else none
  get_by_name := fun _ => none
  connectOk := true
  frameData := fun _ => [1, 2, 3, 4]
  sendAccepted := 1024
  recv := .ok 31 [0, 0, 0, 7]

/-- An environment with an empty registry. -/
def envEmpty : Env where
  get_by_id := fun _ => none
  get_by_name := fun _ => none
  connectOk := true
  frameData := fun _ => []
  sendAccepted := 0
  recv := .hang

/-- Like `envBase`, but the device answers with a frame whose id (99)
differs from the requested one (31). -/
def envMismatch : Env := { envBase with recv := .ok 99 [] }

/-- Like `envBase`, but the receive raises `FrameCRCMismatch` with
received CRC `0xABCD` and calculated CRC `0x1234`. -/
def envCrc : Env := { envBase with recv := .crcMismatch 0xABCD 0x1234 }

/-- Registry knows `objB` under id 5; the encoded READ frame is four
bytes long but the kernel accepts only one byte from the single `send`
call. -/
def envPartialSend : Env where
  get_by_id := fun i => if i = 5 then some objB else none
  get_by_name := fun _ => none
  connectOk := true
  frameData := fun _ => [1, 2, 3, 4]
  sendAccepted := 1
  recv := .ok 5 []

/-! ## Supporting lemmas -/

/-- Running the loop over a trace of `n` timed-out waits leaves the loop
spinning with the decoder state untouched, after `n` further `select`
calls each made with the full timeout. -/
theorem receiveFrameGo_timeouts {σ : Type} (M : FrameModel σ) (t : Nat) :
    ∀ (n : Nat) (s : σ) (calls : List Nat),
      receiveFrameGo M t (List.replicate n SelectEvent.timeout) s calls =
        (RecvResult.stillLooping s, calls ++ List.replicate n t) := by
  intro n
  induction n with
  | zero => intro s calls; simp [receiveFrameGo]
  | succ n ih =>
    intro s calls
    rw [List.replicate_succ]
    show receiveFrameGo M t (SelectEvent.timeout :: List.replicate n SelectEvent.timeout) s calls = _
    rw [show receiveFrameGo M t (SelectEvent.timeout :: List.replicate n SelectEvent.timeout) s calls
          = receiveFrameGo M t (List.replicate n SelectEvent.timeout) s (calls ++ [t]) from rfl]
    rw [ih]
    simp [List.replicate_succ]

/-- Every timeout value recorded in the audit list of `select` calls is
the caller's `timeout` argument: the wait budget is handed out afresh on
every loop iteration. -/
theorem receiveFrameGo_calls_all {σ : Type} (M : FrameModel σ) (t : Nat) :
    ∀ (events : List SelectEvent) (s : σ) (calls : List Nat),
      calls.all (fun c => c == t) = true →
      ((receiveFrameGo M t events s calls).2.all (fun c => c == t)) = true := by
  intro events
  induction events with
  | nil => intro s calls h; simpa [receiveFrameGo] using h
  | cons e rest ih =>
    intro s calls h
    have hstep : (calls ++ [t]).all (fun c => c == t) = true := by
      simp [List.all_append, h]
    cases e with
    | timeout => exact ih s (calls ++ [t]) hstep
    | data chunk =>
      show ((receiveFrameGo M t (SelectEvent.data chunk :: rest) s calls).2.all
              (fun c => c == t)) = true
      rw [receiveFrameGo]
      by_cases hlen : chunk.length > 0
      · rw [if_pos hlen]
        rcases hc : M.consume s chunk with ⟨s2, i⟩
        by_cases hcomp : M.complete s2 = true
        · simp only [hcomp, if_pos, if_true]
          simpa using hstep
        · simp only [Bool.not_eq_true] at hcomp
          simp only [hcomp, Bool.false_eq_true, if_false]
          exact ih s2 (calls ++ [t]) hstep
      · rw [if_neg hlen]
        exact ih s (calls ++ [t]) hstep

/-- The effects produced by the resolution phase when the registry lookup
raises `KeyError` are registry lookups only. -/
theorem lookupPhase_keyError_effects (env : Env) (id name : Option String)
    (effs : List Effect) (h : lookupPhase env id name = .keyError effs) :
    effs.all Effect.isLookup = true := by
  have hname : ∀ nm : Option String, lookupByNamePhase env nm = .keyError effs →
      effs.all Effect.isLookup = true := by
    intro nm hn
    cases nm with
    | none => simp [lookupByNamePhase] at hn
    | some ns =>
      by_cases hns : ns = ""
      · subst hns; simp [lookupByNamePhase] at hn
      · cases hg : env.get_by_name ns with
        | some o => simp [lookupByNamePhase, hns, hg] at hn
        | none =>
          simp [lookupByNamePhase, hns, hg] at hn
          subst hn
          simp [Effect.isLookup]
  cases id with
  | some s =>
    by_cases hs : s = ""
    · subst hs
      simp only [lookupPhase, if_pos rfl] at h
      exact hname name h
    · cases hp : parse_id_arg s with
      | none => simp [lookupPhase, hs, hp] at h
      | some rid =>
        cases hg : env.get_by_id rid with
        | some o => simp [lookupPhase, hs, hp, hg] at h
        | none =>
          simp [lookupPhase, hs, hp, hg] at h
          subst h
          simp [Effect.isLookup]
  | none =>
    simp only [lookupPhase] at h
    exact hname name h

/-! ## Claims -/

/-- C1: the claim says a `receive_frame` call on a socket that never
becomes readable within the timeout window fails with `Timeout` rather
than hanging or looping forever.  The code does the opposite: the
`while True:` loop (line 69) has no `break`, so when `select` times out
the loop simply calls `select` again; the `raise TimeoutError` on line 87
sits after the loop and is unreachable.  Formally: for every finite
number `n` of select waits, each granted the full timeout and each
elapsing with no data, `receive_frame` is still inside the loop
(`stillLooping`) — it has neither returned a frame nor raised
`TimeoutError`, for arbitrarily large `n`. -/
theorem receive_frame_silent_socket_loops_forever {σ : Type} (M : FrameModel σ)
    (t n : Nat) :
    receive_frame M (List.replicate n SelectEvent.timeout) t =
      (RecvResult.stillLooping M.init, List.replicate n t) := by
  have h := receiveFrameGo_timeouts M t n M.init []
  simpa [receive_frame] using h

/-- C2 counterexample: the claim says that a socket read returning zero
bytes (peer closed) before a frame completes makes the receive fail with
`ConnectionClosed`.  In the code the `if len(buf) > 0:` guard (line 78)
silently skips an empty read and the loop polls again; no
`ConnectionClosed` error exists anywhere in the module.  Concretely: two
consecutive loop iterations in which `recv` returns zero bytes leave
`receive_frame` still looping with the decoder state untouched — the call
has not failed at all, let alone with `ConnectionClosed`. -/
theorem receive_frame_zero_read_no_failure :
    receive_frame lengthFrameModel [SelectEvent.data [], SelectEvent.data []] =
      (RecvResult.stillLooping 0, [2, 2]) := by
  rfl

/-- C2 amended: when a socket read returns zero bytes before a frame
completes, `receive_frame` does not fail: it ignores the empty buffer
(the decoder is not fed, the state is unchanged) and re-enters the
polling loop.  Since a closed peer stays readable, the call spins
indefinitely instead of raising any error. -/
theorem receive_frame_ignores_zero_byte_read {σ : Type} (M : FrameModel σ)
    (t : Nat) (rest : List SelectEvent) (s : σ) (calls : List Nat) :
    receiveFrameGo M t (SelectEvent.data [] :: rest) s calls =
      receiveFrameGo M t rest s (calls ++ [t]) := by
  rfl

/-- C8: the receive used by a query applies a default timeout of 2
seconds unless overridden (`receive_frame(sock, timeout=2)`, line 59; the
`read-value` call site on line 160 passes no override), and the timeout
bounds each individual readability wait: every `select` call made during
the run receives the caller's full `timeout` value, so the budget resets
at the start of every wait rather than being consumed cumulatively. -/
theorem receive_frame_default_two_seconds_per_wait {σ : Type} (M : FrameModel σ)
    (events : List SelectEvent) (t : Nat) (s : σ) :
    receive_frame M events = receiveFrameGo M 2 events M.init [] ∧
    ((receiveFrameGo M t events s []).2.all (fun c => c == t)) = true ∧
    ((receive_frame M events).2.all (fun c => c == 2)) = true := by
  refine ⟨rfl, ?_, ?_⟩
  · exact receiveFrameGo_calls_all M t events s [] rfl
  · exact receiveFrameGo_calls_all M 2 events M.init [] rfl

/-- C9: when the frame completes partway through the received chunk
(`consume` returns `i` with `i < len(buf)`), `receive_frame` still
returns the completed frame at once; the leftover bytes `buf[i:]` are
reported via the logged caveat (lines 83-85, `caveatLogged = true`) and
are neither fed into the decoder nor the cause of a failure — the
remaining trace `rest` is never consulted. -/
theorem receive_frame_leftover_logged_not_consumed {σ : Type} (M : FrameModel σ)
    (t : Nat) (chunk : List Nat) (rest : List SelectEvent) (s s2 : σ) (i : Nat)
    (calls : List Nat)
    (hcons : M.consume s chunk = (s2, i))
    (hcomp : M.complete s2 = true)
    (hlt : i < chunk.length) :
    receiveFrameGo M t (SelectEvent.data chunk :: rest) s calls =
      (RecvResult.frame s2 (chunk.drop i) true, calls ++ [t]) ∧
    chunk.drop i ≠ [] := by
  constructor
  · rw [receiveFrameGo]
    rw [if_pos (Nat.lt_of_le_of_lt (Nat.zero_le i) hlt)]
    rw [hcons]
    simp only [hcomp, if_true]
    simp [hlt]
  · simp [List.drop_eq_nil_iff]
    omega

/-- C9 witness: a decoder that consumes two of the three bytes `[9,9,9]`
and completes; the frame is returned immediately with leftover `[9]` and
the caveat logged. -/
theorem receive_frame_leftover_logged_not_consumed_witness :
    receiveFrameGo checkFrameModel 2 [SelectEvent.data [9, 9, 9]] false [] =
      (RecvResult.frame true [9] true, [2]) ∧ ([9] : List Nat) ≠ [] := by
  have h := receive_frame_leftover_logged_not_consumed checkFrameModel 2 [9, 9, 9]
    [] false true 2 [] rfl rfl (by decide)
  simpa using h

/-- C5: if both `--id` and `--name` are given, or neither is, `read-value`
exits with status 1 at lines 127-129 before doing anything else: the
outcome is the validation failure and the effect list is empty — no
registry lookup, no socket work. -/
theorem read_value_requires_exactly_one_selector (env : Env) (host : String)
    (port : Nat) (id name : Option String) (vb : Bool)
    (h : ((id.isNone && name.isNone) || (id.isSome && name.isSome)) = true) :
    read_value env host port id name vb = (RVOutcome.exitValidation, []) := by
  simp [read_value, h]

/-- C5 witness: neither argument given. -/
theorem read_value_requires_exactly_one_selector_witness :
    read_value envBase "device" 8899 none none false =
      (RVOutcome.exitValidation, []) :=
  read_value_requires_exactly_one_selector envBase "device" 8899 none none false rfl

/-- C4: when the target resolves to a registry miss (`KeyError` from
`get_by_id` or `get_by_name`, lines 140-142), `read-value` exits with
`NotFound` and the effects performed up to that point are registry
lookups only: no socket has been created or connected — resolution
strictly precedes the connect step (lines 148 onward). -/
theorem read_value_notfound_before_socket (env : Env) (host : String)
    (port : Nat) (id name : Option String) (vb : Bool) (effs : List Effect)
    (hv : ((id.isNone && name.isNone) || (id.isSome && name.isSome)) = false)
    (hk : lookupPhase env id name = .keyError effs) :
    read_value env host port id name vb = (RVOutcome.exitNotFound, effs) ∧
    effs.all Effect.isLookup = true := by
  constructor
  · simp [read_value, hv, hk]
  · exact lookupPhase_keyError_effects env id name effs hk

/-- C4 witness: the well-formed but unknown id `0xDEAD` against an empty
registry fails with `NotFound` after a lookup effect only. -/
theorem read_value_notfound_before_socket_witness :
    read_value envEmpty "device" 8899 (some "0xDEAD") none false =
      (RVOutcome.exitNotFound, [Effect.lookupById 57005]) ∧
    ([Effect.lookupById 57005] : List Effect).all Effect.isLookup = true :=
  read_value_notfound_before_socket envEmpty "device" 8899 (some "0xDEAD") none
    false [Effect.lookupById 57005] rfl rfl

/-- C3: when the response frame carries an id different from the
requested object's id, `read-value` exits with the unexpected-response
error (lines 165-167), the outcome records the received and the expected
identifier, and the effect list ends at the single receive: no `decode`,
no `printValue`, and no second send or receive — the session does not
retry. -/
theorem read_value_unexpected_id_terminal (env : Env) (host : String)
    (port : Nat) (s : String) (o : ObjInfo) (rid fid : Int)
    (payload : List Nat) (vb : Bool)
    (hs : s ≠ "")
    (hparse : parse_id_arg s = some rid)
    (hreg : env.get_by_id rid = some o)
    (hconn : env.connectOk = true)
    (hrecv : env.recv = RecvOutcome.ok fid payload)
    (hne : fid ≠ o.object_id) :
    read_value env host port (some s) none vb =
      (RVOutcome.exitUnexpectedId fid o.object_id,
       [Effect.lookupById rid, Effect.socketCreate,
        Effect.socketConnect host port,
        Effect.sendBytes ((env.frameData o.object_id).take env.sendAccepted),
        Effect.receiveLoop]) := by
  simp [read_value, lookupPhase, hs, hparse, hreg, hconn, hrecv, hne]

/-- C3 witness: the device answers id 99 where 31 (`0x1F`) was requested;
the query terminates with the mismatch error and no decode or print
effect. -/
theorem read_value_unexpected_id_terminal_witness :
    read_value envMismatch "device" 8899 (some "0x1F") none false =
      (RVOutcome.exitUnexpectedId 99 31,
       [Effect.lookupById 31, Effect.socketCreate,
        Effect.socketConnect "device" 8899, Effect.sendBytes [1, 2, 3, 4],
        Effect.receiveLoop]) := by
  exact read_value_unexpected_id_terminal envMismatch "device" 8899 "0x1F" objA
    31 99 [] false (by decide) rfl rfl rfl rfl (by decide)

/-- C6: when `receive_frame` raises `FrameCRCMismatch`, the handler on
lines 161-163 reads both the transmitted CRC (`e.received_crc`) and the
locally calculated CRC (`e.calculated_crc`) from the error — the outcome
carries both values — and exits with status 1; the effect list shows no
`decode` and no `printValue`. -/
theorem read_value_crc_mismatch_terminal (env : Env) (host : String)
    (port : Nat) (s : String) (o : ObjInfo) (rid : Int) (r c : Nat) (vb : Bool)
    (hs : s ≠ "")
    (hparse : parse_id_arg s = some rid)
    (hreg : env.get_by_id rid = some o)
    (hconn : env.connectOk = true)
    (hrecv : env.recv = RecvOutcome.crcMismatch r c) :
    read_value env host port (some s) none vb =
      (RVOutcome.exitCrcMismatch r c,
       [Effect.lookupById rid, Effect.socketCreate,
        Effect.socketConnect host port,
        Effect.sendBytes ((env.frameData o.object_id).take env.sendAccepted),
        Effect.receiveLoop]) := by
  simp [read_value, lookupPhase, hs, hparse, hreg, hconn, hrecv]

/-- C6 witness: a mismatch with transmitted CRC `0xABCD` and calculated
CRC `0x1234`; both values appear in the outcome and nothing is decoded
or printed. -/
theorem read_value_crc_mismatch_terminal_witness :
    read_value envCrc "device" 8899 (some "0x1F") none false =
      (RVOutcome.exitCrcMismatch 43981 4660,
       [Effect.lookupById 31, Effect.socketCreate,
        Effect.socketConnect "device" 8899, Effect.sendBytes [1, 2, 3, 4],
        Effect.receiveLoop]) := by
  exact read_value_crc_mismatch_terminal envCrc "device" 8899 "0x1F" objA 31
    43981 4660 false (by decide) rfl rfl rfl rfl

/-- C7 counterexample: the claim says the session writes the frame's
bytes *fully* to the socket (the entire encoded byte sequence is
transmitted) before receiving.  Line 158 is `sock.send(sframe.data)`
with the return value discarded; Python's `socket.send` transmits at
most the given bytes and documents that the caller must check the count
returned.  In an environment where the encoded frame is `[1, 2, 3, 4]`
but the kernel accepts a single byte from the one `send` call, only
`[1]` is transmitted and the session proceeds to receive anyway. -/
theorem read_value_send_not_full_counterexample :
    read_value envPartialSend "device" 8899 (some "0x05") none false =
      (RVOutcome.exitSuccess,
       [Effect.lookupById 5, Effect.socketCreate,
        Effect.socketConnect "device" 8899, Effect.sendBytes [1],
        Effect.receiveLoop, Effect.decode, Effect.printValue false,
        Effect.socketClose]) ∧
    envPartialSend.frameData 5 = [1, 2, 3, 4] := by
  exact ⟨rfl, rfl⟩

/-- C7 amended: after resolving the identifier, the session makes exactly
one `send` call, handing it the full encoded frame, immediately before
entering the receive loop; the bytes actually transmitted are the prefix
of the frame that the kernel accepts (the unchecked return value of
`send`), and they equal the whole frame whenever the kernel accepts at
least its length.  Nothing after the receive ever sends. -/
theorem read_value_single_unchecked_send_before_receive (env : Env)
    (host : String) (port : Nat) (s : String) (o : ObjInfo) (rid : Int)
    (vb : Bool)
    (hs : s ≠ "")
    (hparse : parse_id_arg s = some rid)
    (hreg : env.get_by_id rid = some o)
    (hconn : env.connectOk = true) :
    (read_value env host port (some s) none vb).2 =
      [Effect.lookupById rid, Effect.socketCreate,
       Effect.socketConnect host port,
       Effect.sendBytes ((env.frameData o.object_id).take env.sendAccepted),
       Effect.receiveLoop] ++ afterReceive env o.object_id vb ∧
    (afterReceive env o.object_id vb).all (fun e => !(Effect.isSend e)) = true ∧
    ((env.frameData o.object_id).length ≤ env.sendAccepted →
      (env.frameData o.object_id).take env.sendAccepted =
        env.frameData o.object_id) := by
  refine ⟨?_, ?_, fun h => List.take_of_length_le h⟩
  · cases hrecv : env.recv with
    | hang => simp [read_value, lookupPhase, afterReceive, hs, hparse, hreg, hconn, hrecv]
    | crcMismatch r c =>
      simp [read_value, lookupPhase, afterReceive, hs, hparse, hreg, hconn, hrecv]
    | ok fid payload =>
      by_cases hfid : fid = o.object_id
      · simp [read_value, lookupPhase, afterReceive, hs, hparse, hreg, hconn,
          hrecv, hfid]
      · simp [read_value, lookupPhase, afterReceive, hs, hparse, hreg, hconn,
          hrecv, hfid]
  · cases hrecv : env.recv with
    | hang => simp [afterReceive, hrecv]
    | crcMismatch r c => simp [afterReceive, hrecv]
    | ok fid payload =>
      by_cases hfid : fid = o.object_id
      · simp [afterReceive, hrecv, hfid, Effect.isSend]
      · simp [afterReceive, hrecv, hfid]

/-- C7 amended witness: in the benign environment the single send
transmits the whole four-byte frame before the receive loop. -/
theorem read_value_single_unchecked_send_before_receive_witness :
    (read_value envBase "device" 8899 (some "0x1F") none false).2 =
      [Effect.lookupById 31, Effect.socketCreate,
       Effect.socketConnect "device" 8899, Effect.sendBytes [1, 2, 3, 4],
       Effect.receiveLoop] ++ afterReceive envBase 31 false ∧
    (afterReceive envBase 31 false).all (fun e => !(Effect.isSend e)) = true ∧
    (envBase.frameData 31).take envBase.sendAccepted = envBase.frameData 31 := by
  have h := read_value_single_unchecked_send_before_receive envBase "device"
    8899 "0x1F" objA 31 false (by decide) rfl rfl rfl
  exact ⟨h.1, h.2.1, h.2.2 (by decide)⟩

/-- C10: the `--id` argument is parsed on line 133 as `int(id[2:], 16)`:
the first two characters are discarded unconditionally (no check that
they are `0x`) and the remainder goes to Python's base-16 `int`.  Hence
`zz1F` parses to `0x1F` and the query proceeds to the registry lookup
with 31, while the bare string `0x` (empty remainder) raises
`ValueError` and the query exits 1 with the parse error before any
lookup; the documented form `0x90B53336` parses to that identifier. -/
theorem read_value_id_prefix_discard (env : Env) (host : String) (port : Nat)
    (vb : Bool) :
    (∀ s : String, parse_id_arg s = pythonIntHex (s.drop 2)) ∧
    parse_id_arg "zz1F" = some 31 ∧
    parse_id_arg "0x" = none ∧
    parse_id_arg "0x90B53336" = some 0x90B53336 ∧
    read_value env host port (some "0x") none vb =
      (RVOutcome.exitParseError, []) ∧
    (read_value env host port (some "zz1F") none vb).2.head? =
      some (Effect.lookupById 31) := by
  refine ⟨fun s => rfl, rfl, rfl, rfl, ?_, ?_⟩
  · have h0 : lookupPhase env (some "0x") none = .valueError [] := rfl
    simp [read_value, h0]
  · have hp : parse_id_arg "zz1F" = some 31 := rfl
    cases hg : env.get_by_id 31 with
    | none => simp [read_value, lookupPhase, hp, hg]
    | some o =>
      cases hc : env.connectOk with
      | false => simp [read_value, lookupPhase, hp, hg, hc]
      | true =>
        cases hr : env.recv with
        | hang => simp [read_value, lookupPhase, hp, hg, hc, hr]
        | crcMismatch r c => simp [read_value, lookupPhase, hp, hg, hc, hr]
        | ok fid payload =>
          by_cases hfid : fid = o.object_id
          · simp [read_value, lookupPhase, hp, hg, hc, hr, hfid]
          · simp [read_value, lookupPhase, hp, hg, hc, hr, hfid]

end Rctclient
